import Mathlib

/-!
Verification of the edge-list result container of `cpp/src/c_api/edgelist.cpp`
(cugraph C API): a shallow embedding of the container, its six accessors and
its destructor, together with models of the parts of the layer (type-erased
device arrays, the producer-side constructor, the allocation heap) whose code
lives outside this file's source surface and is therefore modelled from the
specification.
-/

/-- Element type tag of a typed device buffer (the fixed set of primitive
numeric kinds the type-erased boundary can report). -/
inductive data_type_id where
  | INT32
  | INT64
  | FLOAT32
  | FLOAT64
  | SIZE_T
deriving DecidableEq, Repr

/-- Modelled from the spec: a Typed Device Buffer — one accelerator-resident
array of one primitive numeric type, with a device address.  Element values
are modelled as rationals so that both integer and floating-point payloads of
the scenarios are represented exactly. -/
structure device_buffer where
  dtype : data_type_id
  data : List Rat
  addr : Nat
deriving DecidableEq, Repr

/-- Modelled from the spec: a Type-Erased Array (`cugraph_type_erased_device_array_t`,
whose class definition is not under the source surface) owns exactly one typed
device buffer. -/
structure type_erased_device_array where
  buffer : device_buffer
deriving DecidableEq, Repr

/-- Modelled from the spec: a View — a non-owning descriptor (type, length,
address) borrowed from an Array; `data` records what the address points to
while the owning Array is live. -/
structure device_array_view where
  dtype : data_type_id
  length : Nat
  addr : Nat
  data : List Rat
deriving DecidableEq, Repr

/-- Modelled from the spec: `view()` mints a non-owning View of this Array's
buffer, O(1), metadata consistent with the owner. -/
def type_erased_device_array.view (a : type_erased_device_array) : device_array_view :=
  ⟨a.buffer.dtype, a.buffer.data.length, a.buffer.addr, a.buffer.data⟩

/-- The Edgelist Result container `cugraph::c_api::cugraph_edgelist_t`.  Its
field list is exactly the one the source file dereferences: `src_`, `dst_`,
`wgt_`, `edge_ids_`, `edge_type_ids_`, `subgraph_offsets_`; the three
optional fields are nullable pointers, modelled as `Option`. -/
structure cugraph_edgelist where
  src_ : type_erased_device_array
  dst_ : type_erased_device_array
  wgt_ : Option type_erased_device_array
  edge_ids_ : Option type_erased_device_array
  edge_type_ids_ : Option type_erased_device_array
  subgraph_offsets_ : type_erased_device_array
deriving DecidableEq, Repr

/-- `cugraph_edgelist_get_sources`: returns `src_->view()` unconditionally
(the C function returns a view pointer; `some` is the non-NULL pointer). -/
def cugraph_edgelist_get_sources (e : cugraph_edgelist) : Option device_array_view :=
  some e.src_.view

/-- `cugraph_edgelist_get_destinations`: returns `dst_->view()` unconditionally. -/
def cugraph_edgelist_get_destinations (e : cugraph_edgelist) : Option device_array_view :=
  some e.dst_.view

/-- `cugraph_edgelist_get_edge_weights`: returns NULL when `wgt_` is the null
pointer, otherwise `wgt_->view()`. -/
def cugraph_edgelist_get_edge_weights (e : cugraph_edgelist) : Option device_array_view :=
  match e.wgt_ with
  | none => none
  | some a => some a.view

/-- `cugraph_edgelist_get_edge_ids`: returns NULL when `edge_ids_` is the null
pointer, otherwise `edge_ids_->view()`. -/
def cugraph_edgelist_get_edge_ids (e : cugraph_edgelist) : Option device_array_view :=
  match e.edge_ids_ with
  | none => none
  | some a => some a.view

/-- `cugraph_edgelist_get_edge_type_ids`: returns NULL when `edge_type_ids_`
is the null pointer, otherwise `edge_type_ids_->view()`. -/
def cugraph_edgelist_get_edge_type_ids (e : cugraph_edgelist) : Option device_array_view :=
  match e.edge_type_ids_ with
  | none => none
  | some a => some a.view

/-- `cugraph_edgelist_get_edge_offsets`: returns `subgraph_offsets_->view()`
unconditionally. -/
def cugraph_edgelist_get_edge_offsets (e : cugraph_edgelist) : Option device_array_view :=
  some e.subgraph_offsets_.view

/-- Outcome of one call across the C boundary.  The source performs an
unchecked `reinterpret_cast` and dereference of the incoming handle: on a
valid handle the call completes (`ok`); on a null, foreign or already-freed
handle the dereference has no defined semantics in C++, embedded as
`undefinedBehavior`.  `reportedError` is the defined, reported failure the
specification asks of reimplementations; no operation of the source ever
constructs it, because the source contains no validity check. -/
inductive CallOutcome (α : Type) where
  | ok : α → CallOutcome α
  | reportedError : CallOutcome α
  | undefinedBehavior : CallOutcome α
deriving DecidableEq, Repr

/-- State visible at the boundary: the table of live Result handles (a freed
or never-allocated handle maps to `none`) and the list of live device
allocation addresses (the instrumented allocation counter of the spec). -/
structure SysState where
  heap : Nat → Option cugraph_edgelist
  live : List Nat

/-- Update the handle table at one handle. -/
def setHandle (h : Nat → Option cugraph_edgelist) (p : Nat)
    (v : Option cugraph_edgelist) : Nat → Option cugraph_edgelist :=
  fun q => if q = p then v else h q

/-- `delete` of an owned Array pointer: releases its device buffer, removing
the buffer's address from the live-allocation list. -/
def deleteArray (live : List Nat) (a : type_erased_device_array) : List Nat :=
  live.erase a.buffer.addr

/-- `delete` of a nullable owned Array pointer: `delete nullptr` is a no-op. -/
def deleteOptArray (live : List Nat) : Option type_erased_device_array → List Nat
  | none => live
  | some a => deleteArray live a

/-- Address of a nullable owned Array, as a zero-or-one-element list. -/
def optAddr : Option type_erased_device_array → List Nat
  | none => []
  | some a => [a.buffer.addr]

/-- The device addresses a Result owns, in the order the destructor deletes
them: `src_`, `dst_`, `wgt_`, `edge_ids_`, `edge_type_ids_`,
`subgraph_offsets_`. -/
def ownedAddrs (e : cugraph_edgelist) : List Nat :=
  e.src_.buffer.addr :: e.dst_.buffer.addr ::
    (optAddr e.wgt_ ++ optAddr e.edge_ids_ ++ optAddr e.edge_type_ids_ ++
      [e.subgraph_offsets_.buffer.addr])

/-- The six `delete` statements of `cugraph_edgelist_free`, in source order,
acting on the live-allocation list. -/
def freeBody (e : cugraph_edgelist) (live : List Nat) : List Nat :=
  deleteArray
    (deleteOptArray
      (deleteOptArray
        (deleteOptArray
          (deleteArray (deleteArray live e.src_) e.dst_)
          e.wgt_)
        e.edge_ids_)
      e.edge_type_ids_)
    e.subgraph_offsets_

/-- `cugraph_edgelist_free` as a boundary operation: dereferences the handle
(undefined behavior when invalid — the source checks nothing), deletes the
six owned Array pointers in source order, then deletes the container itself
(the handle leaves the table). -/
def freeOp (s : SysState) (p : Nat) : SysState × CallOutcome Unit :=
  match s.heap p with
  | none => (s, CallOutcome.undefinedBehavior)
  | some e => (⟨setHandle s.heap p none, freeBody e s.live⟩, CallOutcome.ok ())

/-- A getter of the source as a boundary operation: dereferences the handle
(undefined behavior when invalid — the source checks nothing) and reads the
corresponding field; the state is untouched because the source only reads. -/
def getterOp (g : cugraph_edgelist → Option device_array_view)
    (s : SysState) (p : Nat) : SysState × CallOutcome (Option device_array_view) :=
  match s.heap p with
  | none => (s, CallOutcome.undefinedBehavior)
  | some e => (s, CallOutcome.ok (g e))

/-- The concrete Result of the spec's round-trip scenario: sources `[0,1,2]`,
destinations `[1,2,0]`, weights `[1.0,2.0,3.0]`, offsets `[0,3]`, no edge ids
and no edge type ids (device addresses chosen arbitrarily). -/
def roundTripResult : cugraph_edgelist :=
  { src_ := ⟨⟨data_type_id.INT32, [0, 1, 2], 100⟩⟩
    dst_ := ⟨⟨data_type_id.INT32, [1, 2, 0], 101⟩⟩
    wgt_ := some ⟨⟨data_type_id.FLOAT64, [1, 2, 3], 102⟩⟩
    edge_ids_ := none
    edge_type_ids_ := none
    subgraph_offsets_ := ⟨⟨data_type_id.SIZE_T, [0, 3], 103⟩⟩ }

/-- A Result whose weights field is present but has a zero-length buffer,
used to witness that zero-length and absent are distinct states. -/
def emptyWeightsResult : cugraph_edgelist :=
  { roundTripResult with wgt_ := some ⟨⟨data_type_id.FLOAT64, [], 102⟩⟩ }

/-- An optional field that is present iff the flag is set (used to range over
the eight presence combinations of the three optional fields). -/
def mkOptional (b : Bool) (a : type_erased_device_array) : Option type_erased_device_array :=
  if b then some a else none

/-- A boundary state holding exactly the round-trip Result at handle 0, its
owned device allocations live on top of a baseline allocation `[99]`. -/
def sysRT : SysState :=
  ⟨setHandle (fun _ => none) 0 (some roundTripResult),
    ownedAddrs roundTripResult ++ [99]⟩

/-- A Result with weights and edge type ids present, edge ids absent
(presence combination `true, false, true`). -/
def edgelistB : cugraph_edgelist :=
  ⟨⟨⟨data_type_id.INT32, [5], 10⟩⟩,
    ⟨⟨data_type_id.INT32, [6], 11⟩⟩,
    mkOptional true ⟨⟨data_type_id.FLOAT32, [7], 12⟩⟩,
    mkOptional false ⟨⟨data_type_id.INT64, [8], 13⟩⟩,
    mkOptional true ⟨⟨data_type_id.INT32, [9], 14⟩⟩,
    ⟨⟨data_type_id.SIZE_T, [0, 1], 15⟩⟩⟩

/-- A boundary state holding `edgelistB` at handle 0, its owned device
allocations live on top of a baseline allocation `[77]`. -/
def sysB : SysState :=
  ⟨setHandle (fun _ => none) 0 (some edgelistB), ownedAddrs edgelistB ++ [77]⟩

/-- The all-handles-invalid boundary state (no Result was ever constructed). -/
def sysEmpty : SysState := ⟨fun _ => none, []⟩

/-- Modelled from the spec: the running-total index the producer uses to
pack several subgraphs' edges into one flattened result — `prefixSums a cs`
starts at `a` and appends one running total per subgraph edge count. -/
def prefixSums (a : Nat) : List Nat → List Nat
  | [] => [a]
  | c :: cs => a :: prefixSums (a + c) cs

/-- Modelled from the spec: the subgraph-offsets array of a packed result;
edges for subgraph `i` occupy `offsets[i] .. offsets[i+1])` across all
parallel arrays, so the offsets are the prefix sums of the per-subgraph edge
counts, starting at 0. -/
def packOffsets (counts : List Nat) : List Nat := prefixSums 0 counts

/-- The values of a natural-number index array as stored in a device buffer
(buffer values are modelled as rationals). -/
def ratList (l : List Nat) : List Rat := l.map (Nat.cast : Nat → Rat)

/-- Modelled from the spec: the producer's packed Result for per-subgraph
edge counts `counts` with the given flattened sources and destinations (the
producer is an external collaborator, not under the source surface). -/
def packResult (srcs dsts : List Rat) (counts : List Nat) : cugraph_edgelist :=
  { src_ := ⟨⟨data_type_id.INT32, srcs, 0⟩⟩
    dst_ := ⟨⟨data_type_id.INT32, dsts, 1⟩⟩
    wgt_ := none
    edge_ids_ := none
    edge_type_ids_ := none
    subgraph_offsets_ :=
      ⟨⟨data_type_id.SIZE_T, ratList (packOffsets counts), 2⟩⟩ }

/-- Modelled from the spec: the device allocator seen by the producer.  The
oracle records whether each successive allocation request succeeds (device
memory is scarce and acquisition can fail); `next` is the next fresh device
address and `live` the instrumented live-allocation list. -/
structure Allocator where
  oracle : List Bool
  next : Nat
  live : List Nat
deriving DecidableEq, Repr

/-- Modelled from the spec: one device allocation attempt — on success it
returns a fresh address and records it live. -/
def allocOne : Allocator → Option (Nat × Allocator)
  | ⟨[], _, _⟩ => none
  | ⟨false :: _, _, _⟩ => none
  | ⟨true :: rest, nx, lv⟩ => some (nx, ⟨rest, nx + 1, nx :: lv⟩)

/-- Modelled from the spec: releasing one device allocation. -/
def releaseAddr (A : Allocator) (a : Nat) : Allocator :=
  ⟨A.oracle, A.next, A.live.erase a⟩

/-- Modelled from the spec: allocate `n` device buffers in sequence; if any
attempt fails, every buffer already allocated during the attempt is released
before the failure is reported. -/
def allocMany : Nat → Allocator → Option (List Nat) × Allocator
  | 0, A => (some [], A)
  | n + 1, A =>
      match allocOne A with
      | none => (none, A)
      | some (a, A1) =>
          match allocMany n A1 with
          | (none, A2) => (none, releaseAddr A2 a)
          | (some rest, A2) => (some (a :: rest), A2)

/-- Number of device buffers an optional field requests: one iff supplied. -/
def optCount : Option (List Rat) → Nat
  | none => 0
  | some _ => 1

/-- Modelled from the spec: producer-side construction of a Result — it
allocates one device buffer per field (three mandatory, one per supplied
optional); only if every allocation succeeds is a fully populated container
returned, otherwise no handle is returned and the partial allocations have
been released. -/
def constructEdgelist (srcs dsts : List Rat) (w ids tids : Option (List Rat))
    (offs : List Rat) (A : Allocator) : Option cugraph_edgelist × Allocator :=
  match allocMany (3 + optCount w + optCount ids + optCount tids) A with
  | (none, A1) => (none, A1)
  | (some addrs, A1) =>
      (some
        { src_ := ⟨⟨data_type_id.INT32, srcs, addrs.getD 0 0⟩⟩
          dst_ := ⟨⟨data_type_id.INT32, dsts, addrs.getD 1 0⟩⟩
          wgt_ := w.map (fun d => ⟨⟨data_type_id.FLOAT64, d, addrs.getD 2 0⟩⟩)
          edge_ids_ := ids.map (fun d =>
            ⟨⟨data_type_id.INT64, d, addrs.getD (2 + optCount w) 0⟩⟩)
          edge_type_ids_ := tids.map (fun d =>
            ⟨⟨data_type_id.INT32, d, addrs.getD (2 + optCount w + optCount ids) 0⟩⟩)
          subgraph_offsets_ := ⟨⟨data_type_id.SIZE_T, offs,
            addrs.getD (2 + optCount w + optCount ids + optCount tids) 0⟩⟩ }, A1)

/-- An allocator whose third allocation request fails (two successes, then a
failure), starting from an empty live list. -/
def allocFail : Allocator := ⟨[true, true, false], 0, []⟩

/-! ## Theorems -/

/-- Sequentially deleting the six owned Array pointers removes exactly the
owned addresses from the live-allocation list: each `delete` erases the
current head of the owned block, so the baseline survives untouched. -/
theorem freeBody_restores (e : cugraph_edgelist) (base : List Nat) :
    freeBody e (ownedAddrs e ++ base) = base := by
  rcases e with ⟨aS, aD, w, i, t, aO⟩
  cases w <;> cases i <;> cases t <;>
    simp [freeBody, ownedAddrs, optAddr, deleteArray, deleteOptArray]

/-- C2: on a well-formed live Result with `N` edges and `M` subgraphs (sources
and destinations of length `N`, subgraph offsets of length `M+1`),
`cugraph_edgelist_get_sources` and `cugraph_edgelist_get_destinations` each
return a present (non-NULL) View of length `N`, and
`cugraph_edgelist_get_edge_offsets` returns a present View of length `M+1`. -/
theorem mandatory_getters_present_with_lengths (e : cugraph_edgelist) (N M : Nat)
    (hs : e.src_.buffer.data.length = N)
    (hd : e.dst_.buffer.data.length = N)
    (ho : e.subgraph_offsets_.buffer.data.length = M + 1) :
    (∃ v, cugraph_edgelist_get_sources e = some v ∧ v.length = N) ∧
    (∃ v, cugraph_edgelist_get_destinations e = some v ∧ v.length = N) ∧
    (∃ v, cugraph_edgelist_get_edge_offsets e = some v ∧ v.length = M + 1) := by
  refine ⟨⟨e.src_.view, rfl, hs⟩, ⟨e.dst_.view, rfl, hd⟩, ⟨e.subgraph_offsets_.view, rfl, ho⟩⟩

/-- C2 witness: the round-trip Result has 3 edges and 1 subgraph, and the
three mandatory getters return present Views of lengths 3, 3 and 2. -/
theorem mandatory_getters_present_with_lengths_w :
    (∃ v, cugraph_edgelist_get_sources roundTripResult = some v ∧ v.length = 3) ∧
    (∃ v, cugraph_edgelist_get_destinations roundTripResult = some v ∧ v.length = 3) ∧
    (∃ v, cugraph_edgelist_get_edge_offsets roundTripResult = some v ∧ v.length = 1 + 1) :=
  mandatory_getters_present_with_lengths roundTripResult 3 1 rfl rfl rfl

/-- C3: each optional getter returns the NULL sentinel iff its field is the
null pointer; a present field — even one whose buffer is zero-length — always
yields its (non-NULL) view, never the sentinel. -/
theorem optional_getters_sentinel_iff_absent (e : cugraph_edgelist) :
    (cugraph_edgelist_get_edge_weights e = none ↔ e.wgt_ = none) ∧
    (cugraph_edgelist_get_edge_ids e = none ↔ e.edge_ids_ = none) ∧
    (cugraph_edgelist_get_edge_type_ids e = none ↔ e.edge_type_ids_ = none) ∧
    (∀ a, e.wgt_ = some a → cugraph_edgelist_get_edge_weights e = some a.view) ∧
    (∀ a, e.edge_ids_ = some a → cugraph_edgelist_get_edge_ids e = some a.view) ∧
    (∀ a, e.edge_type_ids_ = some a → cugraph_edgelist_get_edge_type_ids e = some a.view) := by
  refine ⟨?_, ?_, ?_, ?_, ?_, ?_⟩ <;>
    first
      | (cases h : e.wgt_ <;>
          simp [cugraph_edgelist_get_edge_weights, h])
      | (cases h : e.edge_ids_ <;>
          simp [cugraph_edgelist_get_edge_ids, h])
      | (cases h : e.edge_type_ids_ <;>
          simp [cugraph_edgelist_get_edge_type_ids, h])

/-- C3 witness: on a Result whose weights buffer is present but zero-length,
the weights getter returns a present View (of length 0), not the sentinel,
while the absent edge-ids getter returns the sentinel. -/
theorem optional_getters_sentinel_iff_absent_w :
    cugraph_edgelist_get_edge_weights emptyWeightsResult =
      some ⟨data_type_id.FLOAT64, 0, 102, []⟩ ∧
    (cugraph_edgelist_get_edge_ids emptyWeightsResult = none ↔
      emptyWeightsResult.edge_ids_ = none) :=
  ⟨(optional_getters_sentinel_iff_absent emptyWeightsResult).2.2.2.1
      ⟨⟨data_type_id.FLOAT64, [], 102⟩⟩ rfl,
    (optional_getters_sentinel_iff_absent emptyWeightsResult).2.1⟩

/-- C6: the round-trip scenario — on the Result built from sources `[0,1,2]`,
destinations `[1,2,0]`, weights `[1.0,2.0,3.0]`, offsets `[0,3]` and no edge
ids or edge type ids, `get_sources` yields `[0,1,2]`, `get_destinations`
yields `[1,2,0]`, `get_edge_weights` yields `[1.0,2.0,3.0]`, and
`get_edge_ids` and `get_edge_type_ids` yield the absent sentinel. -/
theorem round_trip_scenario :
    (cugraph_edgelist_get_sources roundTripResult).map device_array_view.data =
      some [0, 1, 2] ∧
    (cugraph_edgelist_get_destinations roundTripResult).map device_array_view.data =
      some [1, 2, 0] ∧
    (cugraph_edgelist_get_edge_weights roundTripResult).map device_array_view.data =
      some [1, 2, 3] ∧
    cugraph_edgelist_get_edge_ids roundTripResult = none ∧
    cugraph_edgelist_get_edge_type_ids roundTripResult = none := by
  refine ⟨rfl, rfl, rfl, rfl, rfl⟩

/-- C1: on a live (successfully constructed, not yet freed) Result handle,
`cugraph_edgelist_free` completes in one step, releasing every owned device
Array (the live-allocation list returns to the baseline) and the container
itself (the handle leaves the table) — all of it, with no partial release. -/
theorem cugraph_edgelist_free_releases_all_atomically (s : SysState) (p : Nat)
    (e : cugraph_edgelist) (base : List Nat)
    (hp : s.heap p = some e) (hl : s.live = ownedAddrs e ++ base) :
    (freeOp s p).2 = CallOutcome.ok () ∧
    (freeOp s p).1.heap p = none ∧
    (freeOp s p).1.live = base := by
  simp [freeOp, hp, hl, setHandle, freeBody_restores]

/-- C1 witness: freeing the round-trip Result at handle 0 succeeds, removes
the handle, and returns the live allocations to the baseline `[99]`. -/
theorem cugraph_edgelist_free_releases_all_atomically_w :
    (freeOp sysRT 0).2 = CallOutcome.ok () ∧
    (freeOp sysRT 0).1.heap 0 = none ∧
    (freeOp sysRT 0).1.live = [99] :=
  cugraph_edgelist_free_releases_all_atomically sysRT 0 roundTripResult [99] rfl rfl

/-- C9: for every presence combination of the three optional fields,
`cugraph_edgelist_free` still succeeds and returns the live allocations to
the baseline; deleting an absent optional field is the `delete nullptr`
no-op. -/
theorem free_total_over_optional_presence (b1 b2 b3 : Bool)
    (aS aD aW aI aT aO : type_erased_device_array)
    (s : SysState) (p : Nat) (base : List Nat)
    (hp : s.heap p =
      some ⟨aS, aD, mkOptional b1 aW, mkOptional b2 aI, mkOptional b3 aT, aO⟩)
    (hl : s.live =
      ownedAddrs ⟨aS, aD, mkOptional b1 aW, mkOptional b2 aI, mkOptional b3 aT, aO⟩ ++ base) :
    (freeOp s p).2 = CallOutcome.ok () ∧
    (freeOp s p).1.live = base ∧
    (∀ l : List Nat, deleteOptArray l none = l) := by
  refine ⟨?_, ?_, fun l => rfl⟩ <;> simp [freeOp, hp, hl, freeBody_restores]

/-- C9 witness: freeing the Result with presence combination
`(true, false, true)` succeeds and restores the baseline `[77]`. -/
theorem free_total_over_optional_presence_w :
    (freeOp sysB 0).2 = CallOutcome.ok () ∧ (freeOp sysB 0).1.live = [77] :=
  ⟨(free_total_over_optional_presence true false true _ _ _ _ _ _ sysB 0 [77] rfl rfl).1,
    (free_total_over_optional_presence true false true _ _ _ _ _ _ sysB 0 [77] rfl rfl).2.1⟩

/-- C8: on a live Result handle every getter is a pure read — the boundary
state after the call is exactly the state before it, so the container's
fields (and in particular the handle's binding) are unchanged by any number
of getter calls in any order. -/
theorem getters_pure_reads (s : SysState) (p : Nat) (e : cugraph_edgelist)
    (hp : s.heap p = some e) :
    (getterOp cugraph_edgelist_get_sources s p).1 = s ∧
    (getterOp cugraph_edgelist_get_destinations s p).1 = s ∧
    (getterOp cugraph_edgelist_get_edge_weights s p).1 = s ∧
    (getterOp cugraph_edgelist_get_edge_ids s p).1 = s ∧
    (getterOp cugraph_edgelist_get_edge_type_ids s p).1 = s ∧
    (getterOp cugraph_edgelist_get_edge_offsets s p).1 = s ∧
    (getterOp cugraph_edgelist_get_sources s p).1.heap p = some e := by
  simp [getterOp, hp]

/-- C8 witness: on the round-trip state, each getter leaves the state (and
the handle's binding) unchanged. -/
theorem getters_pure_reads_w :
    (getterOp cugraph_edgelist_get_sources sysRT 0).1 = sysRT ∧
    (getterOp cugraph_edgelist_get_destinations sysRT 0).1 = sysRT ∧
    (getterOp cugraph_edgelist_get_edge_weights sysRT 0).1 = sysRT ∧
    (getterOp cugraph_edgelist_get_edge_ids sysRT 0).1 = sysRT ∧
    (getterOp cugraph_edgelist_get_edge_type_ids sysRT 0).1 = sysRT ∧
    (getterOp cugraph_edgelist_get_edge_offsets sysRT 0).1 = sysRT ∧
    (getterOp cugraph_edgelist_get_sources sysRT 0).1.heap 0 = some roundTripResult :=
  getters_pure_reads sysRT 0 roundTripResult rfl

/-- C10: getters are deterministic — a repeated call to a getter on the same
handle (run on the state the first call left) returns the identical outcome,
hence a View with identical type, length and address or the identical
sentinel; and each getter's result depends only on the corresponding field
of the container. -/
theorem getters_deterministic (s : SysState) (p : Nat) (e : cugraph_edgelist)
    (e1 e2 : cugraph_edgelist) (hp : s.heap p = some e) :
    ((getterOp cugraph_edgelist_get_sources
        (getterOp cugraph_edgelist_get_sources s p).1 p).2 =
      (getterOp cugraph_edgelist_get_sources s p).2) ∧
    ((getterOp cugraph_edgelist_get_destinations
        (getterOp cugraph_edgelist_get_destinations s p).1 p).2 =
      (getterOp cugraph_edgelist_get_destinations s p).2) ∧
    ((getterOp cugraph_edgelist_get_edge_weights
        (getterOp cugraph_edgelist_get_edge_weights s p).1 p).2 =
      (getterOp cugraph_edgelist_get_edge_weights s p).2) ∧
    ((getterOp cugraph_edgelist_get_edge_ids
        (getterOp cugraph_edgelist_get_edge_ids s p).1 p).2 =
      (getterOp cugraph_edgelist_get_edge_ids s p).2) ∧
    ((getterOp cugraph_edgelist_get_edge_type_ids
        (getterOp cugraph_edgelist_get_edge_type_ids s p).1 p).2 =
      (getterOp cugraph_edgelist_get_edge_type_ids s p).2) ∧
    ((getterOp cugraph_edgelist_get_edge_offsets
        (getterOp cugraph_edgelist_get_edge_offsets s p).1 p).2 =
      (getterOp cugraph_edgelist_get_edge_offsets s p).2) ∧
    (e1.src_ = e2.src_ →
      cugraph_edgelist_get_sources e1 = cugraph_edgelist_get_sources e2) ∧
    (e1.dst_ = e2.dst_ →
      cugraph_edgelist_get_destinations e1 = cugraph_edgelist_get_destinations e2) ∧
    (e1.wgt_ = e2.wgt_ →
      cugraph_edgelist_get_edge_weights e1 = cugraph_edgelist_get_edge_weights e2) ∧
    (e1.edge_ids_ = e2.edge_ids_ →
      cugraph_edgelist_get_edge_ids e1 = cugraph_edgelist_get_edge_ids e2) ∧
    (e1.edge_type_ids_ = e2.edge_type_ids_ →
      cugraph_edgelist_get_edge_type_ids e1 = cugraph_edgelist_get_edge_type_ids e2) ∧
    (e1.subgraph_offsets_ = e2.subgraph_offsets_ →
      cugraph_edgelist_get_edge_offsets e1 = cugraph_edgelist_get_edge_offsets e2) := by
  refine ⟨?_, ?_, ?_, ?_, ?_, ?_, ?_, ?_, ?_, ?_, ?_, ?_⟩ <;>
    first
      | simp [getterOp, hp]
      | (intro h;
         simp [cugraph_edgelist_get_sources, cugraph_edgelist_get_destinations,
           cugraph_edgelist_get_edge_weights, cugraph_edgelist_get_edge_ids,
           cugraph_edgelist_get_edge_type_ids, cugraph_edgelist_get_edge_offsets, h])

/-- C10 witness: on the round-trip state, the repeated sources call agrees
with the first, and the weights getter applied to two containers with equal
weights fields agrees. -/
theorem getters_deterministic_w :
    ((getterOp cugraph_edgelist_get_sources
        (getterOp cugraph_edgelist_get_sources sysRT 0).1 0).2 =
      (getterOp cugraph_edgelist_get_sources sysRT 0).2) ∧
    cugraph_edgelist_get_edge_weights roundTripResult =
      cugraph_edgelist_get_edge_weights roundTripResult :=
  ⟨(getters_deterministic sysRT 0 roundTripResult roundTripResult roundTripResult rfl).1,
    (getters_deterministic sysRT 0 roundTripResult roundTripResult roundTripResult
      rfl).2.2.2.2.2.2.2.2.1 rfl⟩

/-- C4 counterexample: the claim that every operation detects an invalid
handle and fails in a well-defined, reported way is false of the source.
After freeing the only live handle, a second `cugraph_edgelist_free` of the
same handle, or `cugraph_edgelist_get_sources` on it — and any operation on
a never-allocated (null or foreign) handle — is an unchecked dereference:
undefined behavior, not a reported failure. -/
theorem no_invalid_handle_detection_cex :
    (freeOp (freeOp sysRT 0).1 0).2 = CallOutcome.undefinedBehavior ∧
    (freeOp (freeOp sysRT 0).1 0).2 ≠ CallOutcome.reportedError ∧
    (getterOp cugraph_edgelist_get_sources (freeOp sysRT 0).1 0).2 =
      CallOutcome.undefinedBehavior ∧
    (freeOp sysEmpty 0).2 = CallOutcome.undefinedBehavior := by
  refine ⟨rfl, ?_, rfl, rfl⟩
  intro h
  exact CallOutcome.noConfusion h

/-- C4 (amended): the source performs no defensive handle validation — a
null, foreign, or already-freed handle passed to any of the six getters or
to `cugraph_edgelist_free` is dereferenced unchecked, which is undefined
behavior, never a detected and reported failure. -/
theorem invalid_handle_is_undefined_behavior (s : SysState) (p : Nat)
    (hp : s.heap p = none) :
    (getterOp cugraph_edgelist_get_sources s p).2 = CallOutcome.undefinedBehavior ∧
    (getterOp cugraph_edgelist_get_destinations s p).2 = CallOutcome.undefinedBehavior ∧
    (getterOp cugraph_edgelist_get_edge_weights s p).2 = CallOutcome.undefinedBehavior ∧
    (getterOp cugraph_edgelist_get_edge_ids s p).2 = CallOutcome.undefinedBehavior ∧
    (getterOp cugraph_edgelist_get_edge_type_ids s p).2 = CallOutcome.undefinedBehavior ∧
    (getterOp cugraph_edgelist_get_edge_offsets s p).2 = CallOutcome.undefinedBehavior ∧
    (freeOp s p).2 = CallOutcome.undefinedBehavior := by
  simp [getterOp, freeOp, hp]

/-- C4 (amended) witness: every operation applied to a handle in the empty
boundary state is undefined behavior. -/
theorem invalid_handle_is_undefined_behavior_w :
    (getterOp cugraph_edgelist_get_sources sysEmpty 0).2 = CallOutcome.undefinedBehavior ∧
    (getterOp cugraph_edgelist_get_destinations sysEmpty 0).2 = CallOutcome.undefinedBehavior ∧
    (getterOp cugraph_edgelist_get_edge_weights sysEmpty 0).2 = CallOutcome.undefinedBehavior ∧
    (getterOp cugraph_edgelist_get_edge_ids sysEmpty 0).2 = CallOutcome.undefinedBehavior ∧
    (getterOp cugraph_edgelist_get_edge_type_ids sysEmpty 0).2 = CallOutcome.undefinedBehavior ∧
    (getterOp cugraph_edgelist_get_edge_offsets sysEmpty 0).2 = CallOutcome.undefinedBehavior ∧
    (freeOp sysEmpty 0).2 = CallOutcome.undefinedBehavior :=
  invalid_handle_is_undefined_behavior sysEmpty 0 rfl

/-- The running-total index over `l` counts has one more entry than `l`. -/
theorem prefixSums_length : ∀ (l : List Nat) (a : Nat),
    (prefixSums a l).length = l.length + 1
  | [], _ => rfl
  | c :: cs, a => by simp [prefixSums, prefixSums_length cs (a + c)]

/-- The running-total index starts at its start value. -/
theorem prefixSums_head? (l : List Nat) (a : Nat) :
    (prefixSums a l).head? = some a := by
  cases l <;> rfl

/-- The running-total index ends at the start value plus the total count. -/
theorem prefixSums_getLast? : ∀ (l : List Nat) (a : Nat),
    (prefixSums a l).getLast? = some (a + l.sum)
  | [], a => by simp [prefixSums]
  | c :: cs, a => by
      have h := prefixSums_getLast? cs (a + c)
      cases hcs : prefixSums (a + c) cs with
      | nil => rw [hcs] at h; cases h
      | cons y ys =>
          rw [hcs] at h
          simp only [prefixSums, hcs, List.getLast?_cons_cons, h, List.sum_cons]
          rw [Nat.add_assoc]

/-- The running-total index is non-decreasing. -/
theorem prefixSums_chain : ∀ (l : List Nat) (a : Nat),
    List.Chain' (· ≤ ·) (prefixSums a l)
  | [], a => by simp [prefixSums]
  | c :: cs, a => by
      simp only [prefixSums]
      refine List.chain'_cons'.mpr ⟨?_, prefixSums_chain cs (a + c)⟩
      intro y hy
      rw [prefixSums_head?] at hy
      cases hy
      exact Nat.le_add_right a c

/-- The buffer values of an index array have the array's length. -/
theorem ratList_length (l : List Nat) : (ratList l).length = l.length := by
  simp [ratList]

/-- The buffer values of an index array start where the array starts. -/
theorem ratList_head? (l : List Nat) :
    (ratList l).head? = l.head?.map (Nat.cast : Nat → Rat) := by
  cases l <;> rfl

/-- The buffer values of an index array end where the array ends. -/
theorem ratList_getLast? : ∀ (l : List Nat),
    (ratList l).getLast? = l.getLast?.map (Nat.cast : Nat → Rat)
  | [] => rfl
  | [_] => rfl
  | a :: b :: t => by
      have h := ratList_getLast? (b :: t)
      simp only [ratList, List.map_cons] at h ⊢
      rw [List.getLast?_cons_cons, List.getLast?_cons_cons, h]

/-- The buffer values of a non-decreasing index array are non-decreasing. -/
theorem ratList_chain (l : List Nat) (h : List.Chain' (· ≤ ·) l) :
    List.Chain' (· ≤ ·) (ratList l) := by
  rw [ratList, List.chain'_map]
  exact h.imp (fun a b hab => Nat.cast_le.mpr hab)

/-- C5: for the packed Result of any per-subgraph edge counts (`M` subgraphs)
whose flattened sources have the declared total length `N`, the
subgraph-offsets array returned by `cugraph_edgelist_get_edge_offsets` has
length `M+1`, first element 0, last element `N`, and is non-decreasing. -/
theorem packed_subgraph_offsets_invariants (srcs dsts : List Rat)
    (counts : List Nat) (N : Nat)
    (hN : counts.sum = N) (hs : srcs.length = N) :
    ∃ v, cugraph_edgelist_get_edge_offsets (packResult srcs dsts counts) = some v ∧
      v.data.length = counts.length + 1 ∧
      v.data.head? = some 0 ∧
      v.data.getLast? = some (N : Rat) ∧
      List.Chain' (· ≤ ·) v.data := by
  refine ⟨_, rfl, ?_, ?_, ?_, ?_⟩
  · show (ratList (packOffsets counts)).length = counts.length + 1
    rw [ratList_length, packOffsets, prefixSums_length]
  · show (ratList (packOffsets counts)).head? = some 0
    rw [ratList_head?, packOffsets, prefixSums_head?]
    simp
  · show (ratList (packOffsets counts)).getLast? = some (N : Rat)
    rw [ratList_getLast?, packOffsets, prefixSums_getLast?]
    simp [hN]
  · show List.Chain' (· ≤ ·) (ratList (packOffsets counts))
    exact ratList_chain _ (prefixSums_chain counts 0)

/-- C5 witness: two subgraphs contributing 2 and 3 edges over 5 edges give a
well-formed offsets array of length 3, from 0 to 5, non-decreasing. -/
theorem packed_subgraph_offsets_invariants_w :
    ∃ v, cugraph_edgelist_get_edge_offsets
        (packResult [0, 1, 2, 3, 4] [1, 2, 3, 4, 0] [2, 3]) = some v ∧
      v.data.length = [2, 3].length + 1 ∧
      v.data.head? = some 0 ∧
      v.data.getLast? = some (5 : Rat) ∧
      List.Chain' (· ≤ ·) v.data :=
  packed_subgraph_offsets_invariants [0, 1, 2, 3, 4] [1, 2, 3, 4, 0] [2, 3] 5 rfl rfl

/-- A successful single allocation pushes exactly its fresh address onto the
live-allocation list. -/
theorem allocOne_live : ∀ (A : Allocator) (a : Nat) (A1 : Allocator),
    allocOne A = some (a, A1) → A1.live = a :: A.live
  | ⟨[], _, _⟩, _, _, h => by cases h
  | ⟨false :: _, _, _⟩, _, _, h => by cases h
  | ⟨true :: rest, nx, lv⟩, a, A1, h => by
      simp only [allocOne, Option.some.injEq, Prod.mk.injEq] at h
      obtain ⟨h1, h2⟩ := h
      rw [← h2, ← h1]

/-- If a sequence of allocations fails at any point, every allocation made
during the attempt has been released: the live list returns to its initial
value. -/
theorem allocMany_rollback (n : Nat) : ∀ (A : Allocator),
    (allocMany n A).1 = none → (allocMany n A).2.live = A.live := by
  induction n with
  | zero => intro A h; simp [allocMany] at h
  | succ n ih =>
      intro A h
      rw [allocMany] at h ⊢
      generalize hA : allocOne A = oA at h ⊢
      cases oA with
      | none => rfl
      | some pa =>
          obtain ⟨a, A1⟩ := pa
          dsimp only at h ⊢
          generalize hr : allocMany n A1 = r at h ⊢
          obtain ⟨ores, A2⟩ := r
          cases ores with
          | some l => simp at h
          | none =>
              have hA2 : A2.live = A1.live := by
                have h2 := ih A1
                rw [hr] at h2
                exact h2 rfl
              show (releaseAddr A2 a).live = A.live
              simp only [releaseAddr]
              rw [hA2, allocOne_live A a A1 hA, List.erase_cons_head]

/-- C7: construction is all-or-nothing.  If any allocation during the attempt
fails, no handle is returned and the live-allocation list is exactly what it
was before the attempt (every partial allocation released); if a handle is
returned, the Result is fully populated — sources, destinations and offsets
hold the given data and each optional field is present with its data exactly
when it was supplied. -/
theorem construction_all_or_nothing (srcs dsts : List Rat)
    (w ids tids : Option (List Rat)) (offs : List Rat) (A : Allocator) :
    ((constructEdgelist srcs dsts w ids tids offs A).1 = none →
      (constructEdgelist srcs dsts w ids tids offs A).2.live = A.live) ∧
    (∀ e, (constructEdgelist srcs dsts w ids tids offs A).1 = some e →
      e.src_.buffer.data = srcs ∧
      e.dst_.buffer.data = dsts ∧
      (e.wgt_.map fun a => a.buffer.data) = w ∧
      (e.edge_ids_.map fun a => a.buffer.data) = ids ∧
      (e.edge_type_ids_.map fun a => a.buffer.data) = tids ∧
      e.subgraph_offsets_.buffer.data = offs) := by
  unfold constructEdgelist
  rcases hr : allocMany (3 + optCount w + optCount ids + optCount tids) A with ⟨ores, A1⟩
  cases ores with
  | none =>
      refine ⟨fun _ => ?_, fun e he => ?_⟩
      · have := allocMany_rollback (3 + optCount w + optCount ids + optCount tids) A
          (by rw [hr])
        rw [hr] at this
        simpa using this
      · simp at he
  | some addrs =>
      refine ⟨fun h => ?_, fun e he => ?_⟩
      · simp at h
      · simp only [Option.some.injEq] at he
        subst he
        refine ⟨rfl, rfl, ?_, ?_, ?_, rfl⟩ <;>
          first
            | (cases w <;> rfl)
            | (cases ids <;> rfl)
            | (cases tids <;> rfl)

/-- C7 witness: with an allocator whose third allocation fails, constructing
a mandatory-fields-only Result returns no handle and leaves no allocation
live. -/
theorem construction_all_or_nothing_w :
    (constructEdgelist [0] [1] none none none [0, 1] allocFail).1 = none ∧
    (constructEdgelist [0] [1] none none none [0, 1] allocFail).2.live = [] :=
  ⟨rfl, (construction_all_or_nothing [0] [1] none none none [0, 1] allocFail).1 rfl⟩
